import Mathlib

/-!
Verification of the bulk transaction staging and resolution engine of
`zenmoney-mcp` (src/src/server.rs), as a shallow embedding in Lean 4.

Modelling conventions:
* `f64` amounts become `ℚ`: the engine only copies, compares and stores
  amounts (no arithmetic), so rational amounts are a faithful model.
* `Utc::now()` and `uuid::Uuid::new_v4()` become explicit parameters
  (`now : Int`, a fresh-id string / generator `gen : Nat → String`).
* Fallible Rust functions returning `Result<_, McpError>` become
  `Except McpError _`.
* `HashMap` stores become association lists with first-match lookup
  (keys are unique in the modelled stores).
-/

/-- Error type mirroring the `McpError` values produced in server.rs
(`invalid_params` and `internal_error`). -/
inductive McpError where
  | invalidParams (msg : String)
  | internalError (msg : String)
deriving DecidableEq

/-- `true` iff an `Except` value is `ok`. -/
def isOkE {ε α : Type} : Except ε α → Bool
  | .ok _ => true
  | .error _ => false

/-- Transaction type, from params.rs `TransactionType`. -/
inductive TransactionType where
  | Expense
  | Income
  | Transfer
deriving DecidableEq

/-- A calendar date, standing in for `chrono::NaiveDate`. -/
structure NaiveDate where
  year : Nat
  month : Nat
  day : Nat
deriving DecidableEq

/-- Gregorian leap-year rule. -/
def isLeapYear (y : Nat) : Bool :=
  (y % 4 == 0 && y % 100 != 0) || (y % 400 == 0)

/-- Number of days in a month of a given year. -/
def daysInMonth (y m : Nat) : Nat :=
  if m = 2 then (if isLeapYear y then 29 else 28)
  else if m = 4 ∨ m = 6 ∨ m = 9 ∨ m = 11 then 30
  else 31

/-- Interprets a list of characters as a decimal number; `none` when empty
or containing a non-digit. -/
def digitsToNat (cs : List Char) : Option Nat :=
  if cs ≠ [] ∧ cs.all Char.isDigit then
    some (cs.foldl (fun a c => a * 10 + (c.toNat - 48)) 0)
  else none

/-- Splits a character list into the groups separated by a dash. -/
def splitDash : List Char → List (List Char)
  | [] => [[]]
  | c :: rest =>
    let r := splitDash rest
    if c = '-' then [] :: r
    else
      match r with
      | [] => [[c]]
      | g :: gs => (c :: g) :: gs

/-- Modelled from the spec: server.rs `parse_date` delegates to
`chrono::NaiveDate::parse_from_str` with format `%Y-%m-%d`, which is outside
this repository; the spec says "format `YYYY-MM-DD`; invalid format or
out-of-range calendar date fails". We accept exactly `YYYY-MM-DD` with a
4-digit year and 2-digit month/day, validating the calendar range. -/
def parseDate (s : String) : Option NaiveDate :=
  match splitDash s.data with
  | [ys, ms, ds] =>
    if ys.length = 4 ∧ ms.length = 2 ∧ ds.length = 2 then
      match digitsToNat ys, digitsToNat ms, digitsToNat ds with
      | some y, some m, some d =>
        if 1 ≤ m ∧ m ≤ 12 ∧ 1 ≤ d ∧ d ≤ daysInMonth y m then
          some { year := y, month := m, day := d }
        else none
      | _, _, _ => none
    else none
  | _ => none

/-- A ZenMoney transaction record (zenmoney_rs `Transaction`), with all the
fields that server.rs constructs or mutates. Amounts are `ℚ`, timestamps
`Int`, ids `String`, instrument ids `Int`. -/
structure Transaction where
  id : String
  changed : Int
  created : Int
  user : Int
  deleted : Bool
  hold : Option Bool
  income_instrument : Int
  income_account : String
  income : ℚ
  outcome_instrument : Int
  outcome_account : String
  outcome : ℚ
  tag : Option (List String)
  merchant : Option String
  payee : Option String
  original_payee : Option String
  comment : Option String
  date : NaiveDate
  mcc : Option Int
  reminder_marker : Option String
  op_income : Option ℚ
  op_income_instrument : Option Int
  op_outcome : Option ℚ
  op_outcome_instrument : Option Int
  latitude : Option ℚ
  longitude : Option ℚ
  income_bank_id : Option String
  outcome_bank_id : Option String
  qr_code : Option String
  source : Option String
  viewed : Option Bool
deriving DecidableEq

/-- Lookup maps built from ledger snapshots (response.rs `LookupMaps`),
as association lists with unique keys. -/
structure LookupMaps where
  accounts : List (String × String)
  tags : List (String × String)
  instruments : List (Int × String)
  account_instruments : List (String × Int)

/-- response.rs `LookupMaps::account_instrument`: account id → instrument id. -/
def LookupMaps.account_instrument (maps : LookupMaps) (id : String) : Option Int :=
  List.lookup id maps.account_instruments

/-- params.rs `CreateTransactionParams`. -/
structure CreateTransactionParams where
  transaction_type : TransactionType
  date : String
  account_id : String
  amount : ℚ
  to_account_id : Option String
  to_amount : Option ℚ
  instrument_id : Option Int
  to_instrument_id : Option Int
  tag_ids : Option (List String)
  payee : Option String
  comment : Option String
deriving DecidableEq

/-- params.rs `UpdateTransactionParams`. -/
structure UpdateTransactionParams where
  id : String
  date : Option String
  amount : Option ℚ
  to_amount : Option ℚ
  account_id : Option String
  to_account_id : Option String
  tag_ids : Option (List String)
  payee : Option String
  comment : Option String
deriving DecidableEq

/-- params.rs `DeleteTransactionParams`. -/
structure DeleteTransactionParams where
  id : String
deriving DecidableEq

/-- params.rs `BulkOperation`. -/
inductive BulkOperation where
  | Create (p : CreateTransactionParams)
  | Update (u : UpdateTransactionParams)
  | Delete (d : DeleteTransactionParams)
deriving DecidableEq

/-- server.rs `MAX_BULK_OPERATIONS`. -/
def MAX_BULK_OPERATIONS : Nat := 20

/-- Error message of server.rs `resolve_instrument` when no instrument is
derivable (the message names the offending account). -/
def unresolvedInstrumentMsg (account_id : String) : String :=
  "cannot resolve instrument for account " ++ account_id ++ "; provide instrument_id explicitly"

/-- Error message of server.rs `parse_date` on invalid input. -/
def invalidDateMsg (date_str : String) : String :=
  "invalid date " ++ date_str

/-- Error message when a transfer lacks a destination account. -/
def missingDestMsg : String :=
  "to_account_id is required for transfer transactions"

/-- Error message when an update/delete references an unknown transaction. -/
def notFoundMsg (id : String) : String :=
  "transaction " ++ id ++ " not found"

/-- Error message when the batch exceeds `MAX_BULK_OPERATIONS`. -/
def tooManyMsg : String :=
  "too many operations; limit is 20 per call, split into smaller batches"

/-- Error message when a preparation key is unknown at execute time. -/
def prepNotFoundMsg (id : String) : String :=
  "preparation " ++ id ++ " not found or already executed"

/-- server.rs `resolve_instrument`: explicit override wins; otherwise the
account→instrument index; otherwise an error naming the account. -/
def resolve_instrument (maps : LookupMaps) (account_id : String)
    (explicit : Option Int) : Except McpError Int :=
  match explicit with
  | some id => .ok id
  | none =>
    match maps.account_instrument account_id with
    | some i => .ok i
    | none => .error (.invalidParams (unresolvedInstrumentMsg account_id))

/-- server.rs `classify_transaction`. -/
def classify_transaction (tx : Transaction) : TransactionType :=
  let different_accounts := tx.outcome_account ≠ tx.income_account
  if tx.outcome > 0 ∧ tx.income > 0 ∧ different_accounts then
    .Transfer
  else if tx.income > 0 ∧ (tx.outcome = 0 ∨ ¬different_accounts) then
    .Income
  else
    .Expense

/-- server.rs `ResolvedSides`. -/
structure ResolvedSides where
  outcome_account : String
  outcome : ℚ
  outcome_instrument : Int
  income_account : String
  income : ℚ
  income_instrument : Int
deriving DecidableEq

/-- server.rs `resolve_sides`. -/
def resolve_sides (params : CreateTransactionParams) (maps : LookupMaps) :
    Except McpError ResolvedSides :=
  match params.transaction_type with
  | .Expense =>
    match resolve_instrument maps params.account_id params.instrument_id with
    | .error e => .error e
    | .ok instrument =>
      .ok { outcome_account := params.account_id
            outcome := params.amount
            outcome_instrument := instrument
            income_account := params.account_id
            income := 0
            income_instrument := instrument }
  | .Income =>
    match resolve_instrument maps params.account_id params.instrument_id with
    | .error e => .error e
    | .ok instrument =>
      .ok { outcome_account := params.account_id
            outcome := 0
            outcome_instrument := instrument
            income_account := params.account_id
            income := params.amount
            income_instrument := instrument }
  | .Transfer =>
    match params.to_account_id with
    | none => .error (.invalidParams missingDestMsg)
    | some to_account_id =>
      match resolve_instrument maps params.account_id params.instrument_id with
      | .error e => .error e
      | .ok from_instrument =>
        match resolve_instrument maps to_account_id params.to_instrument_id with
        | .error e => .error e
        | .ok to_instrument =>
          let to_amount := params.to_amount.getD params.amount
          .ok { outcome_account := params.account_id
                outcome := params.amount
                outcome_instrument := from_instrument
                income_account := to_account_id
                income := to_amount
                income_instrument := to_instrument }

/-- server.rs `build_transaction`; the fresh uuid and current time are
explicit parameters `fresh_id` and `now`. -/
def build_transaction (params : CreateTransactionParams) (maps : LookupMaps)
    (now : Int) (fresh_id : String) : Except McpError Transaction :=
  match parseDate params.date with
  | none => .error (.invalidParams (invalidDateMsg params.date))
  | some date =>
    match resolve_sides params maps with
    | .error e => .error e
    | .ok sides =>
      .ok { id := fresh_id
            changed := now
            created := now
            user := 0
            deleted := false
            hold := none
            income_instrument := sides.income_instrument
            income_account := sides.income_account
            income := sides.income
            outcome_instrument := sides.outcome_instrument
            outcome_account := sides.outcome_account
            outcome := sides.outcome
            tag := params.tag_ids
            merchant := none
            payee := params.payee
            original_payee := none
            comment := params.comment
            date := date
            mcc := none
            reminder_marker := none
            op_income := none
            op_income_instrument := none
            op_outcome := none
            op_outcome_instrument := none
            latitude := none
            longitude := none
            income_bank_id := none
            outcome_bank_id := none
            qr_code := none
            source := none
            viewed := none }

/-- server.rs `apply_update`, `date` block: reparse and replace when present. -/
def updDate (tx : Transaction) (params : UpdateTransactionParams) :
    Except McpError Transaction :=
  match params.date with
  | none => .ok tx
  | some date_str =>
    match parseDate date_str with
    | none => .error (.invalidParams (invalidDateMsg date_str))
    | some d => .ok { tx with date := d }

/-- server.rs `apply_update`, `tag_ids` block: full replacement of the tag set. -/
def updTags (tx : Transaction) (params : UpdateTransactionParams) : Transaction :=
  match params.tag_ids with
  | none => tx
  | some tag_ids => { tx with tag := some tag_ids }

/-- server.rs `apply_update`, `payee` block: empty string clears the field. -/
def updPayee (tx : Transaction) (params : UpdateTransactionParams) : Transaction :=
  match params.payee with
  | none => tx
  | some payee => { tx with payee := if payee = "" then none else some payee }

/-- server.rs `apply_update`, `comment` block: empty string clears the field. -/
def updComment (tx : Transaction) (params : UpdateTransactionParams) : Transaction :=
  match params.comment with
  | none => tx
  | some comment => { tx with comment := if comment = "" then none else some comment }

/-- server.rs `apply_update`, `account_id` block: kind is re-derived, then for
Expense/Income both accounts and both instruments change, for Transfer only the
outcome side changes. -/
def updAccount (maps : LookupMaps) (tx : Transaction)
    (params : UpdateTransactionParams) : Except McpError Transaction :=
  match params.account_id with
  | none => .ok tx
  | some account_id =>
    match classify_transaction tx with
    | .Expense =>
      match resolve_instrument maps account_id none with
      | .error e => .error e
      | .ok instrument =>
        .ok { tx with outcome_account := account_id, income_account := account_id,
                      outcome_instrument := instrument, income_instrument := instrument }
    | .Income =>
      match resolve_instrument maps account_id none with
      | .error e => .error e
      | .ok instrument =>
        .ok { tx with income_account := account_id, outcome_account := account_id,
                      income_instrument := instrument, outcome_instrument := instrument }
    | .Transfer =>
      match resolve_instrument maps account_id none with
      | .error e => .error e
      | .ok instrument =>
        .ok { tx with outcome_account := account_id, outcome_instrument := instrument }

/-- server.rs `apply_update`, `to_account_id` block: always changes the income
(destination) side account and resolved instrument. -/
def updToAccount (maps : LookupMaps) (tx : Transaction)
    (params : UpdateTransactionParams) : Except McpError Transaction :=
  match params.to_account_id with
  | none => .ok tx
  | some to_account_id =>
    match resolve_instrument maps to_account_id none with
    | .error e => .error e
    | .ok instrument =>
      .ok { tx with income_account := to_account_id, income_instrument := instrument }

/-- server.rs `apply_update`, `amount` block: kind is re-derived on the state
as mutated so far; Income sets the income amount, Expense/Transfer the outcome. -/
def updAmount (tx : Transaction) (params : UpdateTransactionParams) : Transaction :=
  match params.amount with
  | none => tx
  | some amount =>
    match classify_transaction tx with
    | .Income => { tx with income := amount }
    | .Expense => { tx with outcome := amount }
    | .Transfer => { tx with outcome := amount }

/-- server.rs `apply_update`, `to_amount` block: always sets the income amount. -/
def updToAmount (tx : Transaction) (params : UpdateTransactionParams) : Transaction :=
  match params.to_amount with
  | none => tx
  | some to_amount => { tx with income := to_amount }

/-- The fallible prefix of server.rs `apply_update`: the date, tags, payee,
comment, account and destination-account blocks, in source order. -/
def applyPrefix (tx : Transaction) (params : UpdateTransactionParams)
    (maps : LookupMaps) : Except McpError Transaction :=
  match updDate tx params with
  | .error e => .error e
  | .ok t1 =>
    match updAccount maps (updComment (updPayee (updTags t1 params) params) params) params with
    | .error e => .error e
    | .ok t5 => updToAccount maps t5 params

/-- server.rs `apply_update` without the final `changed` stamp: field blocks
applied in source order. -/
def applyUpdateCore (tx : Transaction) (params : UpdateTransactionParams)
    (maps : LookupMaps) : Except McpError Transaction :=
  match applyPrefix tx params maps with
  | .error e => .error e
  | .ok t6 => .ok (updToAmount (updAmount t6 params) params)

/-- server.rs `apply_update`: the field blocks, then `changed` is refreshed to
the current time (`now`). -/
def apply_update (tx : Transaction) (params : UpdateTransactionParams)
    (maps : LookupMaps) (now : Int) : Except McpError Transaction :=
  match applyUpdateCore tx params maps with
  | .error e => .error e
  | .ok t => .ok { t with changed := now }

/-- server.rs `PreparedBulk`. -/
structure PreparedBulk where
  to_push : List Transaction
  to_delete : List String
  created_count : Nat
  updated_count : Nat
deriving DecidableEq

/-- First transaction in the snapshot with the given id
(`all_transactions.iter().find(...)` in server.rs). -/
def findTx (all : List Transaction) (id : String) : Option Transaction :=
  all.find? (fun tx => tx.id == id)

/-- The loop body of server.rs `process_bulk_operations`, with the mutable
accumulators made explicit; `gen` supplies the fresh uuid for each create
(indexed by the number of creates so far). -/
def processBulkAux (all : List Transaction) (maps : LookupMaps) (now : Int)
    (gen : Nat → String) :
    List BulkOperation → PreparedBulk → Except McpError PreparedBulk
  | [], acc => .ok acc
  | op :: rest, acc =>
    match op with
    | .Create create_params =>
      match build_transaction create_params maps now (gen acc.created_count) with
      | .error e => .error e
      | .ok new_tx =>
        processBulkAux all maps now gen rest
          { acc with to_push := acc.to_push ++ [new_tx],
                     created_count := acc.created_count + 1 }
    | .Update update_params =>
      match findTx all update_params.id with
      | none => .error (.invalidParams (notFoundMsg update_params.id))
      | some found =>
        match apply_update found update_params maps now with
        | .error e => .error e
        | .ok updated =>
          processBulkAux all maps now gen rest
            { acc with to_push := acc.to_push ++ [updated],
                       updated_count := acc.updated_count + 1 }
    | .Delete delete_params =>
      if all.any (fun tx => tx.id == delete_params.id) then
        processBulkAux all maps now gen rest
          { acc with to_delete := acc.to_delete ++ [delete_params.id] }
      else
        .error (.invalidParams (notFoundMsg delete_params.id))

/-- server.rs `process_bulk_operations`. -/
def process_bulk_operations (operations : List BulkOperation)
    (all : List Transaction) (maps : LookupMaps) (now : Int)
    (gen : Nat → String) : Except McpError PreparedBulk :=
  processBulkAux all maps now gen operations
    { to_push := [], to_delete := [], created_count := 0, updated_count := 0 }

/-- The validation core of server.rs `prepare_bulk_operations`: the
`MAX_BULK_OPERATIONS` fail-fast check, then `process_bulk_operations`. -/
def prepare_bulk_core (operations : List BulkOperation)
    (all : List Transaction) (maps : LookupMaps) (now : Int)
    (gen : Nat → String) : Except McpError PreparedBulk :=
  if operations.length > MAX_BULK_OPERATIONS then
    .error (.invalidParams tooManyMsg)
  else
    process_bulk_operations operations all maps now gen

/-- The preparation store (`preparations: HashMap<String, PreparedBulk>`),
as an association list with unique keys. -/
abbrev PrepStore := List (String × PreparedBulk)

/-- Key lookup in the preparation store. -/
def storeLookup (store : PrepStore) (k : String) : Option PreparedBulk :=
  List.lookup k store

/-- Removes a key from the store (`HashMap::remove`; keys are unique, so
removing every binding of `k` models it). -/
def removeKey (k : String) : PrepStore → PrepStore
  | [] => []
  | (k2, b) :: rest =>
    if k2 == k then removeKey k rest else (k2, b) :: removeKey k rest

/-- server.rs `prepare_bulk_operations` staging step:
`preparations.insert(preparation_id, prepared)`. -/
def stageBulk (store : PrepStore) (k : String) (b : PreparedBulk) : PrepStore :=
  (k, b) :: removeKey k store

/-- server.rs `execute_bulk_operations` consume step:
`preparations.remove(&preparation_id)`, returning the batch and the store
without the key. -/
def consumeBulk (store : PrepStore) (k : String) :
    Option (PreparedBulk × PrepStore) :=
  match storeLookup store k with
  | none => none
  | some b => some (b, removeKey k store)

/-- A write issued to the ledger client. -/
inductive LedgerWrite where
  | pushTransactions (txs : List Transaction)
  | deleteTransactions (ids : List String)
deriving DecidableEq

/-- Outcome of one `execute_bulk_operations` call: the MCP result (summary
counts on success), the store afterwards, and the ledger writes issued. -/
structure ExecOutcome where
  result : Except McpError (Nat × Nat × Nat)
  store : PrepStore
  writes : List LedgerWrite

/-- server.rs `execute_bulk_operations`: consume the preparation (not-found
error if the key is unknown or already consumed), then push the non-empty
push list and delete the non-empty delete list. Ledger failures are external
(out of scope); the `writes` trace records the calls issued. -/
def execute_bulk_operations (store : PrepStore) (preparation_id : String) :
    ExecOutcome :=
  match consumeBulk store preparation_id with
  | none =>
    { result := .error (.invalidParams (prepNotFoundMsg preparation_id))
      store := store
      writes := [] }
  | some (prepared, store2) =>
    let pushWrites :=
      if prepared.to_push.isEmpty then []
      else [LedgerWrite.pushTransactions prepared.to_push]
    let deleteWrites :=
      if prepared.to_delete.isEmpty then []
      else [LedgerWrite.deleteTransactions prepared.to_delete]
    { result := .ok (prepared.created_count, prepared.updated_count, prepared.to_delete.length)
      store := store2
      writes := pushWrites ++ deleteWrites }

/-- An operation is a create. -/
def isCreateOp : BulkOperation → Bool
  | .Create _ => true
  | _ => false

/-- An operation is an update. -/
def isUpdateOp : BulkOperation → Bool
  | .Update _ => true
  | _ => false

/-- An operation is a delete. -/
def isDeleteOp : BulkOperation → Bool
  | .Delete _ => true
  | _ => false

/-- The operation itself validates: a create builds (date parses and sides
resolve), an update references an existing transaction and its patch applies,
a delete references an existing transaction. -/
def opValid (all : List Transaction) (maps : LookupMaps) : BulkOperation → Bool
  | .Create p => (parseDate p.date).isSome && isOkE (resolve_sides p maps)
  | .Update u =>
    match findTx all u.id with
    | none => false
    | some found => isOkE (applyUpdateCore found u maps)
  | .Delete d => all.any (fun tx => tx.id == d.id)

/-- The operation references a transaction id absent from the snapshot. -/
def opRefMissing (all : List Transaction) : BulkOperation → Bool
  | .Create _ => false
  | .Update u => (findTx all u.id).isNone
  | .Delete d => !(all.any (fun tx => tx.id == d.id))

/-- Ids targeted by update operations of a batch. -/
def updateTargets (ops : List BulkOperation) : List String :=
  ops.filterMap (fun op =>
    match op with
    | .Update u => some u.id
    | _ => none)

/-- Ids targeted by delete operations of a batch. -/
def deleteTargets (ops : List BulkOperation) : List String :=
  ops.filterMap (fun op =>
    match op with
    | .Delete d => some d.id
    | _ => none)

/-! ## Concrete fixtures used by witnesses and counterexamples -/

/-- Lookup maps mirroring the server.rs test fixture: account `acc-1` holds
instrument 1, account `acc-2` holds instrument 2. -/
def mapsW : LookupMaps :=
  { accounts := [("acc-1", "Main Account"), ("acc-2", "USD Account")]
    tags := [("tag-1", "Groceries")]
    instruments := [(1, "RUB"), (2, "USD")]
    account_instruments := [("acc-1", 1), ("acc-2", 2)] }

/-- An existing expense transaction: 500 out of `acc-1`, income 0. -/
def txW : Transaction :=
  { id := "tx-1", changed := 0, created := 0, user := 1, deleted := false, hold := none
    income_instrument := 1, income_account := "acc-1", income := 0
    outcome_instrument := 1, outcome_account := "acc-1", outcome := 500
    tag := none, merchant := none, payee := none, original_payee := none, comment := none
    date := { year := 2024, month := 6, day := 15 }
    mcc := none, reminder_marker := none, op_income := none, op_income_instrument := none
    op_outcome := none, op_outcome_instrument := none, latitude := none, longitude := none
    income_bank_id := none, outcome_bank_id := none, qr_code := none, source := none
    viewed := none }

/-- A second existing transaction with id `tx-2`. -/
def txW2 : Transaction :=
  { txW with id := "tx-2" }

/-- Create params: expense of 500 from `acc-1` on 2024-06-15. -/
def pW : CreateTransactionParams :=
  { transaction_type := .Expense, date := "2024-06-15", account_id := "acc-1", amount := 500
    to_account_id := none, to_amount := none, instrument_id := none, to_instrument_id := none
    tag_ids := none, payee := none, comment := none }

/-- Create params: transfer of 1000 from `acc-1` to `acc-2` with destination
amount 15. -/
def pTransW : CreateTransactionParams :=
  { pW with transaction_type := .Transfer, date := "2024-01-01", amount := 1000
            to_account_id := some "acc-2", to_amount := some 15 }

/-- Create params: a transfer with no destination account. -/
def pTransNoDest : CreateTransactionParams :=
  { pW with transaction_type := .Transfer, date := "2024-01-01", amount := 1000 }

/-- Create params: an expense carrying a negative amount. -/
def pNegW : CreateTransactionParams :=
  { pW with amount := -1 }

/-- Update params: patch `tx-1` with amount 750 and nothing else. -/
def upAmountW : UpdateTransactionParams :=
  { id := "tx-1", date := none, amount := some 750, to_amount := none, account_id := none
    to_account_id := none, tag_ids := none, payee := none, comment := none }

/-- Update params: patch `tx-1` with no field set. -/
def upEmptyW : UpdateTransactionParams :=
  { upAmountW with amount := none }

/-! ## C3: transaction classification -/

/-- C3: classification returns `Transfer` exactly when both amounts are
positive and the accounts differ; otherwise `Income` exactly when the income
amount is positive and the outcome amount is zero or the accounts are equal;
otherwise `Expense`. The three cases are mutually exclusive and exhaustive,
so every transaction gets exactly one kind. -/
theorem C3_classify_characterization (tx : Transaction) :
    (classify_transaction tx = .Transfer ↔
      (0 < tx.outcome ∧ 0 < tx.income ∧ tx.outcome_account ≠ tx.income_account)) ∧
    (classify_transaction tx = .Income ↔
      (¬(0 < tx.outcome ∧ 0 < tx.income ∧ tx.outcome_account ≠ tx.income_account) ∧
       0 < tx.income ∧ (tx.outcome = 0 ∨ tx.outcome_account = tx.income_account))) ∧
    (classify_transaction tx = .Expense ↔
      (¬(0 < tx.outcome ∧ 0 < tx.income ∧ tx.outcome_account ≠ tx.income_account) ∧
       ¬(0 < tx.income ∧ (tx.outcome = 0 ∨ tx.outcome_account = tx.income_account)))) := by
  have hd : classify_transaction tx =
      if tx.outcome > 0 ∧ tx.income > 0 ∧ tx.outcome_account ≠ tx.income_account then
        .Transfer
      else if tx.income > 0 ∧ (tx.outcome = 0 ∨ ¬(tx.outcome_account ≠ tx.income_account)) then
        .Income
      else
        .Expense := rfl
  rw [hd]
  split_ifs with h1 h2 <;>
    refine ⟨?_, ?_, ?_⟩ <;> simp_all

/-! ## C6: instrument resolution -/

/-- C6: the explicit instrument wins unconditionally when supplied; with no
explicit instrument the account→instrument index decides, and when the index
has no entry the call fails with an error naming the account. -/
theorem C6_resolve_instrument (maps : LookupMaps) (a : String) (i j : Int) :
    (resolve_instrument maps a (some i) = .ok i) ∧
    (maps.account_instrument a = some j → resolve_instrument maps a none = .ok j) ∧
    (maps.account_instrument a = none →
      resolve_instrument maps a none =
        .error (.invalidParams (unresolvedInstrumentMsg a))) := by
  refine ⟨rfl, ?_, ?_⟩ <;> intro h <;> simp [resolve_instrument, h]

/-- Witness for C6 on the concrete maps: explicit 42 wins over `acc-1`,
`acc-1` auto-resolves to 1, an unknown account fails. -/
theorem C6_witness :
    (resolve_instrument mapsW "acc-1" (some 42) = .ok 42) ∧
    (resolve_instrument mapsW "acc-1" none = .ok 1) ∧
    (resolve_instrument mapsW "unknown" none =
      .error (.invalidParams (unresolvedInstrumentMsg "unknown"))) :=
  ⟨(C6_resolve_instrument mapsW "acc-1" 42 1).1,
   (C6_resolve_instrument mapsW "acc-1" 42 1).2.1 rfl,
   (C6_resolve_instrument mapsW "unknown" 42 1).2.2 rfl⟩

/-! ## C4: transfer side resolution -/

/-- C4: resolving sides for a transfer fails when no destination account is
supplied; with a destination account, the outcome side carries the source
account, source amount and independently resolved source instrument, and the
income side carries the destination account, the supplied `to_amount`
(defaulting to the source amount) and the independently resolved destination
instrument. -/
theorem C4_resolve_sides_transfer (p : CreateTransactionParams)
    (maps : LookupMaps) (dest : String) (fi ti : Int) :
    (p.transaction_type = .Transfer → p.to_account_id = none →
      resolve_sides p maps = .error (.invalidParams missingDestMsg)) ∧
    (p.transaction_type = .Transfer → p.to_account_id = some dest →
      resolve_instrument maps p.account_id p.instrument_id = .ok fi →
      resolve_instrument maps dest p.to_instrument_id = .ok ti →
      resolve_sides p maps = .ok
        { outcome_account := p.account_id
          outcome := p.amount
          outcome_instrument := fi
          income_account := dest
          income := p.to_amount.getD p.amount
          income_instrument := ti }) := by
  constructor
  · intro hk hdest
    simp [resolve_sides, hk, hdest]
  · intro hk hdest hfi hti
    simp [resolve_sides, hk, hdest, hfi, hti]

/-- Witness for C4: the 1000-from-`acc-1`, 15-to-`acc-2` transfer resolves to
outcome 1000 at instrument 1 and income 15 at instrument 2, and the same
transfer without a destination fails. -/
theorem C4_witness :
    (resolve_sides pTransNoDest mapsW = .error (.invalidParams missingDestMsg)) ∧
    (resolve_sides pTransW mapsW = .ok
      { outcome_account := "acc-1", outcome := 1000, outcome_instrument := 1
        income_account := "acc-2", income := 15, income_instrument := 2 }) :=
  ⟨(C4_resolve_sides_transfer pTransNoDest mapsW "acc-2" 1 2).1 rfl rfl,
   (C4_resolve_sides_transfer pTransW mapsW "acc-2" 1 2).2 rfl rfl rfl rfl⟩

/-! ## C5: expense/income side resolution -/

/-- C5: for an Expense or Income create spec that resolves successfully, both
sides carry the supplied account, both sides carry the same instrument, the
side matching the kind carries the supplied amount and the other side
carries 0. -/
theorem C5_resolve_sides_single_account (p : CreateTransactionParams)
    (maps : LookupMaps) (s : ResolvedSides)
    (hk : p.transaction_type = .Expense ∨ p.transaction_type = .Income)
    (h : resolve_sides p maps = .ok s) :
    s.outcome_account = p.account_id ∧ s.income_account = p.account_id ∧
    s.outcome_instrument = s.income_instrument ∧
    (p.transaction_type = .Expense → s.outcome = p.amount ∧ s.income = 0) ∧
    (p.transaction_type = .Income → s.income = p.amount ∧ s.outcome = 0) := by
  unfold resolve_sides at h
  rcases hk with hk | hk <;> rw [hk] at h <;>
    cases hri : resolve_instrument maps p.account_id p.instrument_id <;>
      rw [hri] at h <;> simp_all <;> subst h <;> simp [hk]

/-- Witness for C5: the concrete 500 expense resolves with `acc-1` on both
sides, instrument 1 on both sides, outcome 500 and income 0. -/
theorem C5_witness :
    (resolve_sides pW mapsW = .ok
      { outcome_account := "acc-1", outcome := 500, outcome_instrument := 1
        income_account := "acc-1", income := 0, income_instrument := 1 }) ∧
    ({ outcome_account := "acc-1", outcome := 500, outcome_instrument := 1
       income_account := "acc-1", income := 0
       income_instrument := 1 : ResolvedSides }.outcome = pW.amount ∧
     ({ outcome_account := "acc-1", outcome := 500, outcome_instrument := 1
        income_account := "acc-1", income := 0
        income_instrument := 1 : ResolvedSides }).income = 0) :=
  ⟨rfl,
   (C5_resolve_sides_single_account pW mapsW
      { outcome_account := "acc-1", outcome := 500, outcome_instrument := 1
        income_account := "acc-1", income := 0, income_instrument := 1 }
      (Or.inl rfl) rfl).2.2.2.1 rfl⟩

/-! ## C7: amount patches re-derive the kind -/

/-- C7: when a patch carries an amount, the kind is re-derived on the state
`mid` produced by the earlier patch fields (date, tags, payee, comment,
account, destination account, in that fixed order): `Income` sets the income
amount, `Expense`/`Transfer` set the outcome amount; and when no `to_amount`
follows, the whole update returns exactly that transaction with a refreshed
`changed` stamp. -/
theorem C7_amount_patch (tx mid : Transaction) (params : UpdateTransactionParams)
    (maps : LookupMaps) (now : Int) (a : ℚ)
    (hpre : applyPrefix tx params maps = .ok mid)
    (hamt : params.amount = some a) :
    updAmount mid params = (if classify_transaction mid = .Income
      then { mid with income := a } else { mid with outcome := a }) ∧
    (params.to_amount = none →
      apply_update tx params maps now = .ok
        (if classify_transaction mid = .Income
         then { mid with income := a, changed := now }
         else { mid with outcome := a, changed := now })) := by
  constructor
  · unfold updAmount
    rw [hamt]
    cases hc : classify_transaction mid <;> simp [hc]
  · intro hto
    unfold apply_update applyUpdateCore
    rw [hpre]
    unfold updToAmount updAmount
    rw [hto, hamt]
    cases hc : classify_transaction mid <;> simp [hc]

/-- Witness for C7: patching the existing 500 expense with amount 750 sets
the outcome to 750 and leaves the income at 0. -/
theorem C7_witness :
    apply_update txW upAmountW mapsW 9 = .ok { txW with outcome := 750, changed := 9 } ∧
    ({ txW with outcome := 750, changed := 9 }).income = 0 := by
  have h := (C7_amount_patch txW txW upAmountW mapsW 9 750 rfl rfl).2 rfl
  rw [if_neg (by decide)] at h
  exact ⟨h, rfl⟩

/-! ## Frame helper: fields the patcher never touches -/

/-- The tuple of transaction fields that `apply_update` never writes:
id, created, user, deleted, hold, merchant, original payee, mcc,
reminder marker, the four op fields, coordinates, bank ids, qr code,
source and viewed. -/
def frameFields (a : Transaction) :=
  (a.id, a.created, a.user, a.deleted, a.hold, a.merchant, a.original_payee,
   a.mcc, a.reminder_marker, a.op_income, a.op_income_instrument, a.op_outcome,
   a.op_outcome_instrument, a.latitude, a.longitude, a.income_bank_id,
   a.outcome_bank_id, a.qr_code, a.source, a.viewed)

/-- Two transactions agree on every field the patcher never writes. -/
def sameFrame (a b : Transaction) : Prop :=
  frameFields a = frameFields b

theorem sameFrame_refl (a : Transaction) : sameFrame a a := rfl

theorem sameFrame_trans {a b c : Transaction}
    (h1 : sameFrame a b) (h2 : sameFrame b c) : sameFrame a c :=
  h1.trans h2

/-- The date block leaves the frame fields unchanged. -/
theorem updDate_frame {tx t : Transaction} {p : UpdateTransactionParams}
    (h : updDate tx p = .ok t) : sameFrame t tx := by
  cases hd : p.date with
  | none =>
    simp only [updDate, hd, Except.ok.injEq] at h
    subst h
    rfl
  | some ds =>
    cases hp : parseDate ds with
    | none => simp [updDate, hd, hp] at h
    | some d =>
      simp only [updDate, hd, hp, Except.ok.injEq] at h
      subst h
      rfl

/-- The tag block leaves the frame fields unchanged. -/
theorem updTags_frame (tx : Transaction) (p : UpdateTransactionParams) :
    sameFrame (updTags tx p) tx := by
  unfold updTags
  cases p.tag_ids <;> rfl

/-- The payee block leaves the frame fields unchanged. -/
theorem updPayee_frame (tx : Transaction) (p : UpdateTransactionParams) :
    sameFrame (updPayee tx p) tx := by
  unfold updPayee
  cases p.payee <;> rfl

/-- The comment block leaves the frame fields unchanged. -/
theorem updComment_frame (tx : Transaction) (p : UpdateTransactionParams) :
    sameFrame (updComment tx p) tx := by
  unfold updComment
  cases p.comment <;> rfl

/-- The account block leaves the frame fields unchanged. -/
theorem updAccount_frame {maps : LookupMaps} {tx t : Transaction}
    {p : UpdateTransactionParams} (h : updAccount maps tx p = .ok t) :
    sameFrame t tx := by
  cases ha : p.account_id with
  | none =>
    simp only [updAccount, ha, Except.ok.injEq] at h
    subst h
    rfl
  | some aid =>
    cases hc : classify_transaction tx <;>
      cases hr : resolve_instrument maps aid none <;>
        simp [updAccount, ha, hc, hr] at h <;>
          (subst h; rfl)

/-- The destination-account block leaves the frame fields unchanged. -/
theorem updToAccount_frame {maps : LookupMaps} {tx t : Transaction}
    {p : UpdateTransactionParams} (h : updToAccount maps tx p = .ok t) :
    sameFrame t tx := by
  cases ha : p.to_account_id with
  | none =>
    simp only [updToAccount, ha, Except.ok.injEq] at h
    subst h
    rfl
  | some aid =>
    cases hr : resolve_instrument maps aid none with
    | error e => simp [updToAccount, ha, hr] at h
    | ok i =>
      simp only [updToAccount, ha, hr, Except.ok.injEq] at h
      subst h
      rfl

/-- The amount block leaves the frame fields unchanged. -/
theorem updAmount_frame (tx : Transaction) (p : UpdateTransactionParams) :
    sameFrame (updAmount tx p) tx := by
  unfold updAmount
  cases p.amount with
  | none => rfl
  | some a => cases classify_transaction tx <;> rfl

/-- The destination-amount block leaves the frame fields unchanged. -/
theorem updToAmount_frame (tx : Transaction) (p : UpdateTransactionParams) :
    sameFrame (updToAmount tx p) tx := by
  unfold updToAmount
  cases p.to_amount <;> rfl

/-- The fallible prefix of the patcher leaves the frame fields unchanged. -/
theorem applyPrefix_frame {tx mid : Transaction} {p : UpdateTransactionParams}
    {maps : LookupMaps} (h : applyPrefix tx p maps = .ok mid) :
    sameFrame mid tx := by
  cases h1 : updDate tx p with
  | error e => simp [applyPrefix, h1] at h
  | ok t1 =>
    cases h5 : updAccount maps (updComment (updPayee (updTags t1 p) p) p) p with
    | error e => simp [applyPrefix, h1, h5] at h
    | ok t5 =>
      simp only [applyPrefix, h1, h5] at h
      refine sameFrame_trans (updToAccount_frame h) (sameFrame_trans (updAccount_frame h5) ?_)
      refine sameFrame_trans (updComment_frame _ p) ?_
      refine sameFrame_trans (updPayee_frame _ p) ?_
      exact sameFrame_trans (updTags_frame _ p) (updDate_frame h1)

/-- The whole patcher core leaves the frame fields unchanged. -/
theorem applyUpdateCore_frame {tx t : Transaction} {p : UpdateTransactionParams}
    {maps : LookupMaps} (h : applyUpdateCore tx p maps = .ok t) :
    sameFrame t tx := by
  cases hp : applyPrefix tx p maps with
  | error e => simp [applyUpdateCore, hp] at h
  | ok t6 =>
    simp only [applyUpdateCore, hp, Except.ok.injEq] at h
    subst h
    refine sameFrame_trans (updToAmount_frame _ p) ?_
    exact sameFrame_trans (updAmount_frame _ p) (applyPrefix_frame hp)

/-- `apply_update` leaves the frame fields unchanged (it additionally stamps
`changed`, which is not a frame field). -/
theorem apply_update_frame {tx t : Transaction} {p : UpdateTransactionParams}
    {maps : LookupMaps} {now : Int} (h : apply_update tx p maps now = .ok t) :
    sameFrame t tx := by
  cases hc : applyUpdateCore tx p maps with
  | error e => simp [apply_update, hc] at h
  | ok t0 =>
    simp only [apply_update, hc, Except.ok.injEq] at h
    subst h
    exact sameFrame_trans (show sameFrame { t0 with changed := now } t0 from rfl)
      (applyUpdateCore_frame hc)

/-- A successful `findTx` returns a transaction bearing the requested id. -/
theorem findTx_id {all : List Transaction} {i : String} {tx : Transaction}
    (h : findTx all i = some tx) : tx.id = i := by
  unfold findTx at h
  have := List.find?_some h
  simpa using this

/-! ## C10: the patcher's frame -/

/-- C10: a successful update leaves every field outside the patchable set
unchanged — id, created, user, deleted, hold, merchant, original payee, mcc,
reminder marker, the op fields, coordinates, bank ids, qr code, source and
viewed all keep their values (only date, tags, payee, comment, the two
accounts, the two instruments, the two amounts and the changed stamp may
move); consequently a bulk update pushes the modified transaction under the
id the operation referenced rather than a fresh one. -/
theorem C10_update_frame (tx t : Transaction) (params : UpdateTransactionParams)
    (maps : LookupMaps) (now : Int)
    (h : apply_update tx params maps now = .ok t) :
    t.id = tx.id ∧ t.created = tx.created ∧ t.user = tx.user ∧
    t.deleted = tx.deleted ∧ t.hold = tx.hold ∧ t.merchant = tx.merchant ∧
    t.original_payee = tx.original_payee ∧ t.mcc = tx.mcc ∧
    t.reminder_marker = tx.reminder_marker ∧ t.op_income = tx.op_income ∧
    t.op_income_instrument = tx.op_income_instrument ∧
    t.op_outcome = tx.op_outcome ∧
    t.op_outcome_instrument = tx.op_outcome_instrument ∧
    t.latitude = tx.latitude ∧ t.longitude = tx.longitude ∧
    t.income_bank_id = tx.income_bank_id ∧
    t.outcome_bank_id = tx.outcome_bank_id ∧ t.qr_code = tx.qr_code ∧
    t.source = tx.source ∧ t.viewed = tx.viewed ∧
    (∀ all : List Transaction, findTx all params.id = some tx → t.id = params.id) := by
  have f := apply_update_frame h
  simp only [sameFrame, frameFields, Prod.mk.injEq] at f
  obtain ⟨e1, e2, e3, e4, e5, e6, e7, e8, e9, e10, e11, e12, e13, e14, e15,
    e16, e17, e18, e19, e20⟩ := f
  refine ⟨e1, e2, e3, e4, e5, e6, e7, e8, e9, e10, e11, e12, e13, e14, e15,
    e16, e17, e18, e19, e20, ?_⟩
  intro all hf
  rw [e1, findTx_id hf]

/-- Witness for C10: patching the fixture transaction with amount 750 keeps
its id and created stamp. -/
theorem C10_witness :
    ({ txW with outcome := 750, changed := 9 }).id = txW.id ∧
    ({ txW with outcome := 750, changed := 9 }).id = upAmountW.id :=
  ⟨(C10_update_frame txW { txW with outcome := 750, changed := 9 }
      upAmountW mapsW 9 rfl).1,
   (C10_update_frame txW { txW with outcome := 750, changed := 9 }
      upAmountW mapsW 9 rfl).2.2.2.2.2.2.2.2.2.2.2.2.2.2.2.2.2.2.2.2
      [txW] rfl⟩

/-! ## Amount lemmas for C9 -/

/-- The date block leaves both amounts unchanged. -/
theorem updDate_amounts {tx t : Transaction} {p : UpdateTransactionParams}
    (h : updDate tx p = .ok t) : t.income = tx.income ∧ t.outcome = tx.outcome := by
  cases hd : p.date with
  | none =>
    simp only [updDate, hd, Except.ok.injEq] at h
    subst h
    exact ⟨rfl, rfl⟩
  | some ds =>
    cases hp : parseDate ds with
    | none => simp [updDate, hd, hp] at h
    | some d =>
      simp only [updDate, hd, hp, Except.ok.injEq] at h
      subst h
      exact ⟨rfl, rfl⟩

/-- The tag block leaves both amounts unchanged. -/
theorem updTags_amounts (tx : Transaction) (p : UpdateTransactionParams) :
    (updTags tx p).income = tx.income ∧ (updTags tx p).outcome = tx.outcome := by
  unfold updTags
  cases p.tag_ids <;> exact ⟨rfl, rfl⟩

/-- The payee block leaves both amounts unchanged. -/
theorem updPayee_amounts (tx : Transaction) (p : UpdateTransactionParams) :
    (updPayee tx p).income = tx.income ∧ (updPayee tx p).outcome = tx.outcome := by
  unfold updPayee
  cases p.payee <;> exact ⟨rfl, rfl⟩

/-- The comment block leaves both amounts unchanged. -/
theorem updComment_amounts (tx : Transaction) (p : UpdateTransactionParams) :
    (updComment tx p).income = tx.income ∧ (updComment tx p).outcome = tx.outcome := by
  unfold updComment
  cases p.comment <;> exact ⟨rfl, rfl⟩

/-- The account block leaves both amounts unchanged. -/
theorem updAccount_amounts {maps : LookupMaps} {tx t : Transaction}
    {p : UpdateTransactionParams} (h : updAccount maps tx p = .ok t) :
    t.income = tx.income ∧ t.outcome = tx.outcome := by
  cases ha : p.account_id with
  | none =>
    simp only [updAccount, ha, Except.ok.injEq] at h
    subst h
    exact ⟨rfl, rfl⟩
  | some aid =>
    cases hc : classify_transaction tx <;>
      cases hr : resolve_instrument maps aid none <;>
        simp [updAccount, ha, hc, hr] at h <;>
          (subst h; exact ⟨rfl, rfl⟩)

/-- The destination-account block leaves both amounts unchanged. -/
theorem updToAccount_amounts {maps : LookupMaps} {tx t : Transaction}
    {p : UpdateTransactionParams} (h : updToAccount maps tx p = .ok t) :
    t.income = tx.income ∧ t.outcome = tx.outcome := by
  cases ha : p.to_account_id with
  | none =>
    simp only [updToAccount, ha, Except.ok.injEq] at h
    subst h
    exact ⟨rfl, rfl⟩
  | some aid =>
    cases hr : resolve_instrument maps aid none with
    | error e => simp [updToAccount, ha, hr] at h
    | ok i =>
      simp only [updToAccount, ha, hr, Except.ok.injEq] at h
      subst h
      exact ⟨rfl, rfl⟩

/-- The patcher prefix (everything before the amount blocks) leaves both
amounts unchanged. -/
theorem applyPrefix_amounts {tx mid : Transaction} {p : UpdateTransactionParams}
    {maps : LookupMaps} (h : applyPrefix tx p maps = .ok mid) :
    mid.income = tx.income ∧ mid.outcome = tx.outcome := by
  cases h1 : updDate tx p with
  | error e => simp [applyPrefix, h1] at h
  | ok t1 =>
    cases h5 : updAccount maps (updComment (updPayee (updTags t1 p) p) p) p with
    | error e => simp [applyPrefix, h1, h5] at h
    | ok t5 =>
      simp only [applyPrefix, h1, h5] at h
      have a1 := updDate_amounts h1
      have a2 := updTags_amounts t1 p
      have a3 := updPayee_amounts (updTags t1 p) p
      have a4 := updComment_amounts (updPayee (updTags t1 p) p) p
      have a5 := updAccount_amounts h5
      have a6 := updToAccount_amounts h
      exact ⟨a6.1.trans (a5.1.trans (a4.1.trans (a3.1.trans (a2.1.trans a1.1)))),
             a6.2.trans (a5.2.trans (a4.2.trans (a3.2.trans (a2.2.trans a1.2))))⟩

/-- The amount block keeps both amounts non-negative when the patch amount
is non-negative. -/
theorem updAmount_nonneg {tx : Transaction} {p : UpdateTransactionParams}
    (ho : 0 ≤ tx.outcome) (hi : 0 ≤ tx.income)
    (ha : ∀ a, p.amount = some a → 0 ≤ a) :
    0 ≤ (updAmount tx p).outcome ∧ 0 ≤ (updAmount tx p).income := by
  cases hav : p.amount with
  | none =>
    simp only [updAmount, hav]
    exact ⟨ho, hi⟩
  | some a =>
    have ha0 : 0 ≤ a := ha a hav
    cases hc : classify_transaction tx with
    | Income =>
      simp only [updAmount, hav, hc]
      exact ⟨ho, ha0⟩
    | Expense =>
      simp only [updAmount, hav, hc]
      exact ⟨ha0, hi⟩
    | Transfer =>
      simp only [updAmount, hav, hc]
      exact ⟨ha0, hi⟩

/-- The destination-amount block keeps both amounts non-negative when the
patch destination amount is non-negative. -/
theorem updToAmount_nonneg {tx : Transaction} {p : UpdateTransactionParams}
    (ho : 0 ≤ tx.outcome) (hi : 0 ≤ tx.income)
    (hb : ∀ b, p.to_amount = some b → 0 ≤ b) :
    0 ≤ (updToAmount tx p).outcome ∧ 0 ≤ (updToAmount tx p).income := by
  cases hbv : p.to_amount with
  | none =>
    simp only [updToAmount, hbv]
    exact ⟨ho, hi⟩
  | some b =>
    simp only [updToAmount, hbv]
    exact ⟨ho, hb b hbv⟩

/-- A successfully built transaction carries exactly the resolved sides. -/
theorem build_amounts {p : CreateTransactionParams} {maps : LookupMaps}
    {now : Int} {fid : String} {tx : Transaction}
    (h : build_transaction p maps now fid = .ok tx) :
    ∃ s, resolve_sides p maps = .ok s ∧ tx.outcome = s.outcome ∧ tx.income = s.income := by
  cases hd : parseDate p.date with
  | none => simp [build_transaction, hd] at h
  | some d =>
    cases hs : resolve_sides p maps with
    | error e => simp [build_transaction, hd, hs] at h
    | ok s =>
      simp only [build_transaction, hd, hs, Except.ok.injEq] at h
      subst h
      exact ⟨s, rfl, rfl, rfl⟩

/-- Each resolved side amount is the supplied amount, zero, or the
destination amount with its default. -/
theorem resolve_sides_amounts {p : CreateTransactionParams} {maps : LookupMaps}
    {s : ResolvedSides} (h : resolve_sides p maps = .ok s) :
    (s.outcome = p.amount ∨ s.outcome = 0) ∧
    (s.income = 0 ∨ s.income = p.amount ∨ s.income = p.to_amount.getD p.amount) := by
  cases hk : p.transaction_type with
  | Expense =>
    cases hr : resolve_instrument maps p.account_id p.instrument_id with
    | error e => simp [resolve_sides, hk, hr] at h
    | ok i =>
      simp only [resolve_sides, hk, hr, Except.ok.injEq] at h
      subst h
      exact ⟨Or.inl rfl, Or.inl rfl⟩
  | Income =>
    cases hr : resolve_instrument maps p.account_id p.instrument_id with
    | error e => simp [resolve_sides, hk, hr] at h
    | ok i =>
      simp only [resolve_sides, hk, hr, Except.ok.injEq] at h
      subst h
      exact ⟨Or.inr rfl, Or.inr (Or.inl rfl)⟩
  | Transfer =>
    cases ht : p.to_account_id with
    | none => simp [resolve_sides, hk, ht] at h
    | some dest =>
      cases hr1 : resolve_instrument maps p.account_id p.instrument_id with
      | error e => simp [resolve_sides, hk, ht, hr1] at h
      | ok fi =>
        cases hr2 : resolve_instrument maps dest p.to_instrument_id with
        | error e => simp [resolve_sides, hk, ht, hr1, hr2] at h
        | ok ti =>
          simp only [resolve_sides, hk, ht, hr1, hr2, Except.ok.injEq] at h
          subst h
          exact ⟨Or.inl rfl, Or.inr (Or.inr rfl)⟩

/-! ## C9: non-negative amounts (amended) -/

/-- C9 (amended): whenever the supplied amounts are non-negative — the create
amount and optional destination amount for the builder; the existing
transaction amounts and the optional patch amount and destination amount for
the patcher — the resulting transaction has non-negative outcome and income
amounts. The engine performs no sign validation itself, so a negative
supplied amount passes through (see the counterexample). -/
theorem C9_nonneg_amended :
    (∀ (p : CreateTransactionParams) (maps : LookupMaps) (now : Int)
       (fid : String) (tx : Transaction),
      0 ≤ p.amount → (∀ b, p.to_amount = some b → 0 ≤ b) →
      build_transaction p maps now fid = .ok tx →
      0 ≤ tx.outcome ∧ 0 ≤ tx.income) ∧
    (∀ (tx : Transaction) (p : UpdateTransactionParams) (maps : LookupMaps)
       (now : Int) (t : Transaction),
      0 ≤ tx.outcome → 0 ≤ tx.income →
      (∀ a, p.amount = some a → 0 ≤ a) → (∀ b, p.to_amount = some b → 0 ≤ b) →
      apply_update tx p maps now = .ok t →
      0 ≤ t.outcome ∧ 0 ≤ t.income) := by
  constructor
  · intro p maps now fid tx hamt hto h
    obtain ⟨s, hs, ho, hi⟩ := build_amounts h
    obtain ⟨hout, hinc⟩ := resolve_sides_amounts hs
    constructor
    · rw [ho]
      rcases hout with h1 | h1
      · rw [h1]; exact hamt
      · rw [h1]
    · rw [hi]
      rcases hinc with h1 | h1 | h1
      · rw [h1]
      · rw [h1]; exact hamt
      · rw [h1]
        cases hb : p.to_amount with
        | none => simp only [hb, Option.getD_none]; exact hamt
        | some b => simp only [hb, Option.getD_some]; exact hto b hb
  · intro tx p maps now t ho hi ha hb h
    cases hc : applyUpdateCore tx p maps with
    | error e => simp [apply_update, hc] at h
    | ok t0 =>
      simp only [apply_update, hc, Except.ok.injEq] at h
      subst h
      cases hp : applyPrefix tx p maps with
      | error e => simp [applyUpdateCore, hp] at hc
      | ok t6 =>
        simp only [applyUpdateCore, hp, Except.ok.injEq] at hc
        subst hc
        have h6 := applyPrefix_amounts hp
        have h7 := updAmount_nonneg (h6.2 ▸ ho) (h6.1 ▸ hi) ha
        have h8 := updToAmount_nonneg h7.1 h7.2 hb
        exact h8

/-- Projects the outcome amount of a fallible build result. -/
def outcomeOf (e : Except McpError Transaction) : ℚ :=
  match e with
  | .ok t => t.outcome
  | .error _ => 0

/-- Counterexample for C9 as stated: the builder accepts the expense spec
carrying amount -1 and produces a transaction whose outcome amount is
negative — no sign check exists in the code. -/
theorem C9_counterexample :
    isOkE (build_transaction pNegW mapsW 0 "cex-neg") = true ∧
    outcomeOf (build_transaction pNegW mapsW 0 "cex-neg") < 0 := by
  exact ⟨rfl, by decide⟩

/-- The transaction built from the 500 expense fixture. -/
def txBuiltW : Transaction :=
  { txW with id := "new-1", changed := 3, created := 3, user := 0 }

/-- Witness for C9 (amended) at concrete inputs: the built 500 expense and
the 750-amount patch result both have non-negative sides. -/
theorem C9_witness :
    (0 ≤ txBuiltW.outcome ∧ 0 ≤ txBuiltW.income) ∧
    (0 ≤ ({ txW with outcome := 750, changed := 9 }).outcome ∧
     0 ≤ ({ txW with outcome := 750, changed := 9 }).income) := by
  constructor
  · exact C9_nonneg_amended.1 pW mapsW 3 "new-1" txBuiltW (by decide)
      (fun b hb => by simp [pW] at hb) rfl
  · exact C9_nonneg_amended.2 txW upAmountW mapsW 9
      { txW with outcome := 750, changed := 9 } (by decide) (by decide)
      (fun a ha => by simp [upAmountW] at ha; subst ha; decide)
      (fun b hb => by simp [upAmountW] at hb) rfl

/-! ## Store lemmas for C2 -/

/-- Removing an absent key leaves the store unchanged. -/
theorem removeKey_of_lookup_none {store : PrepStore} {k : String}
    (h : storeLookup store k = none) : removeKey k store = store := by
  induction store with
  | nil => rfl
  | cons hd rest ih =>
    obtain ⟨k2, b⟩ := hd
    cases hbeq : (k == k2) with
    | true =>
      exfalso
      simp only [storeLookup, List.lookup, hbeq] at h
      exact Option.noConfusion h
    | false =>
      simp only [storeLookup, List.lookup, hbeq] at h
      have h2 : (k2 == k) = false := by
        rw [beq_eq_false_iff_ne] at hbeq ⊢
        exact fun he => hbeq he.symm
      have h3 : removeKey k rest = rest := ih h
      simp [removeKey, h2, h3]

/-! ## C2: single-use preparation store -/

/-- C2: staging a batch under a fresh key makes exactly one consume of that
key succeed and return the batch, after which the store is back to its
previous state where the key is absent, so a second consume (and any consume
of a never-staged key) fails; and an execute whose key lookup fails returns
the not-found error, issues no ledger write and leaves the store unchanged. -/
theorem C2_store_single_use (store : PrepStore) (k k2 : String) (b : PreparedBulk)
    (hfresh : storeLookup store k = none) (hk2 : storeLookup store k2 = none) :
    consumeBulk (stageBulk store k b) k = some (b, store) ∧
    consumeBulk store k = none ∧
    (execute_bulk_operations store k2).result =
      .error (.invalidParams (prepNotFoundMsg k2)) ∧
    (execute_bulk_operations store k2).writes = [] ∧
    (execute_bulk_operations store k2).store = store := by
  have hstage : stageBulk store k b = (k, b) :: store := by
    unfold stageBulk
    rw [removeKey_of_lookup_none hfresh]
  refine ⟨?_, ?_, ?_, ?_, ?_⟩
  · rw [hstage]
    unfold consumeBulk storeLookup
    simp only [List.lookup, beq_self_eq_true]
    unfold removeKey
    simp only [beq_self_eq_true, if_pos]
    rw [removeKey_of_lookup_none hfresh]
  · unfold consumeBulk
    rw [hfresh]
  · unfold execute_bulk_operations consumeBulk
    rw [hk2]
  · unfold execute_bulk_operations consumeBulk
    rw [hk2]
  · unfold execute_bulk_operations consumeBulk
    rw [hk2]

/-- An empty prepared batch used by the C2 witness. -/
def bEmptyW : PreparedBulk :=
  { to_push := [], to_delete := [], created_count := 0, updated_count := 0 }

/-- Witness for C2 on a concrete store holding one other preparation:
stage `prep-1`, consume it once successfully, a direct consume of the
original store fails, and executing the unknown `prep-2` writes nothing. -/
theorem C2_witness :
    consumeBulk (stageBulk [("prep-0", bEmptyW)] "prep-1" bEmptyW) "prep-1" =
      some (bEmptyW, [("prep-0", bEmptyW)]) ∧
    consumeBulk [("prep-0", bEmptyW)] "prep-1" = none ∧
    (execute_bulk_operations [("prep-0", bEmptyW)] "prep-2").result =
      .error (.invalidParams (prepNotFoundMsg "prep-2")) ∧
    (execute_bulk_operations [("prep-0", bEmptyW)] "prep-2").writes = [] ∧
    (execute_bulk_operations [("prep-0", bEmptyW)] "prep-2").store =
      [("prep-0", bEmptyW)] :=
  C2_store_single_use [("prep-0", bEmptyW)] "prep-1" "prep-2" bEmptyW rfl rfl

/-! ## Bulk processing lemmas for C1 and C8 -/

/-- An `Except` is ok exactly when some value witnesses it. -/
theorem isOkE_iff {ε α : Type} (e : Except ε α) :
    isOkE e = true ↔ ∃ a, e = .ok a := by
  cases e <;> simp [isOkE]

/-- A create spec whose date parses and whose sides resolve builds
successfully, under the supplied fresh id. -/
theorem build_ok_of_valid {p : CreateTransactionParams} {maps : LookupMaps}
    (hd : (parseDate p.date).isSome = true)
    (hs : isOkE (resolve_sides p maps) = true) (now : Int) (fid : String) :
    ∃ ntx, build_transaction p maps now fid = .ok ntx ∧ ntx.id = fid := by
  cases hdd : parseDate p.date with
  | none => rw [hdd] at hd; simp at hd
  | some d =>
    cases hss : resolve_sides p maps with
    | error e => rw [hss] at hs; simp [isOkE] at hs
    | ok s =>
      simp only [build_transaction, hdd, hss]
      exact ⟨_, rfl, rfl⟩

/-- A successful patcher core gives a successful `apply_update` that only
additionally stamps `changed`. -/
theorem apply_update_of_core {tx t : Transaction} {p : UpdateTransactionParams}
    {maps : LookupMaps} (h : applyUpdateCore tx p maps = .ok t) (now : Int) :
    apply_update tx p maps now = .ok { t with changed := now } := by
  simp only [apply_update, h]

/-- The bulk loop succeeds on a batch of valid operations and adds exactly
one created count per create, one updated count per update and one delete
entry per delete. -/
theorem processBulkAux_ok_of_valid (all : List Transaction) (maps : LookupMaps)
    (now : Int) (gen : Nat → String) :
    ∀ (ops : List BulkOperation) (acc : PreparedBulk),
      (∀ op ∈ ops, opValid all maps op = true) →
      ∃ r, processBulkAux all maps now gen ops acc = .ok r ∧
        r.created_count = acc.created_count + ops.countP isCreateOp ∧
        r.updated_count = acc.updated_count + ops.countP isUpdateOp ∧
        r.to_delete.length = acc.to_delete.length + ops.countP isDeleteOp := by
  intro ops
  induction ops with
  | nil =>
    intro acc h
    exact ⟨acc, rfl, by simp, by simp, by simp⟩
  | cons op rest ih =>
    intro acc h
    have hop := h op (List.mem_cons_self op rest)
    have hrest : ∀ o ∈ rest, opValid all maps o = true :=
      fun o ho => h o (List.mem_cons_of_mem op ho)
    cases op with
    | Create p =>
      simp only [opValid, Bool.and_eq_true] at hop
      obtain ⟨ntx, hb, -⟩ :=
        build_ok_of_valid hop.1 hop.2 now (gen acc.created_count)
      obtain ⟨r, hr, hc, hu, hd⟩ := ih
        { acc with to_push := acc.to_push ++ [ntx],
                   created_count := acc.created_count + 1 } hrest
      refine ⟨r, ?_, ?_, ?_, ?_⟩
      · simp only [processBulkAux, hb]
        exact hr
      · simp [List.countP_cons, isCreateOp] at hc ⊢
        omega
      · simp [List.countP_cons, isUpdateOp] at hu ⊢
        omega
      · simp [List.countP_cons, isDeleteOp] at hd ⊢
        omega
    | Update u =>
      simp only [opValid] at hop
      cases hf : findTx all u.id with
      | none => rw [hf] at hop; simp at hop
      | some found =>
        rw [hf] at hop
        obtain ⟨t, ht⟩ := (isOkE_iff _).mp hop
        have hap := apply_update_of_core ht now
        obtain ⟨r, hr, hc, hu2, hd⟩ := ih
          { acc with to_push := acc.to_push ++ [{ t with changed := now }],
                     updated_count := acc.updated_count + 1 } hrest
        refine ⟨r, ?_, ?_, ?_, ?_⟩
        · simp only [processBulkAux, hf, hap]
          exact hr
        · simp [List.countP_cons, isCreateOp] at hc ⊢
          omega
        · simp [List.countP_cons, isUpdateOp] at hu2 ⊢
          omega
        · simp [List.countP_cons, isDeleteOp] at hd ⊢
          omega
    | Delete d =>
      simp only [opValid] at hop
      obtain ⟨r, hr, hc, hu, hd⟩ := ih
        { acc with to_delete := acc.to_delete ++ [d.id] } hrest
      refine ⟨r, ?_, ?_, ?_, ?_⟩
      · simp only [processBulkAux, hop, if_true]
        exact hr
      · simp [List.countP_cons, isCreateOp] at hc ⊢
        omega
      · simp [List.countP_cons, isUpdateOp] at hu ⊢
        omega
      · simp [List.countP_cons, isDeleteOp, List.length_append] at hd ⊢
        omega

/-- The bulk loop fails whenever some operation of the batch references a
transaction id absent from the snapshot. -/
theorem processBulkAux_error_of_missing (all : List Transaction)
    (maps : LookupMaps) (now : Int) (gen : Nat → String) :
    ∀ (ops : List BulkOperation) (acc : PreparedBulk),
      (∃ op ∈ ops, opRefMissing all op = true) →
      isOkE (processBulkAux all maps now gen ops acc) = false := by
  intro ops
  induction ops with
  | nil =>
    intro acc h
    obtain ⟨op, hmem, -⟩ := h
    exact absurd hmem (List.not_mem_nil op)
  | cons op rest ih =>
    intro acc h
    obtain ⟨op0, hmem, hmiss⟩ := h
    rcases List.mem_cons.mp hmem with rfl | htail
    · cases op0 with
      | Create p => simp [opRefMissing] at hmiss
      | Update u =>
        rw [opRefMissing, Option.isNone_iff_eq_none] at hmiss
        simp [processBulkAux, hmiss, isOkE]
      | Delete d =>
        rw [opRefMissing, Bool.not_eq_true'] at hmiss
        simp [processBulkAux, hmiss, isOkE]
    · cases op with
      | Create p =>
        cases hb : build_transaction p maps now (gen acc.created_count) with
        | error e => simp [processBulkAux, hb, isOkE]
        | ok ntx =>
          simp only [processBulkAux, hb]
          exact ih _ ⟨op0, htail, hmiss⟩
      | Update u =>
        cases hf : findTx all u.id with
        | none => simp [processBulkAux, hf, isOkE]
        | some found =>
          cases ha : apply_update found u maps now with
          | error e => simp [processBulkAux, hf, ha, isOkE]
          | ok updated =>
            simp only [processBulkAux, hf, ha]
            exact ih _ ⟨op0, htail, hmiss⟩
      | Delete d =>
        cases hany : all.any (fun tx => tx.id == d.id) with
        | false => simp [processBulkAux, hany, isOkE]
        | true =>
          simp only [processBulkAux, hany, if_true]
          exact ih _ ⟨op0, htail, hmiss⟩

/-! ## C1: batch validation (amended) -/

/-- C1 (amended): a batch within the size limit whose operations all
validate — every create builds (valid date, resolvable sides), every update
references an existing id and its patch applies, every delete references an
existing id — processes successfully with `created_count`, `updated_count`
and `to_delete` length equal to the numbers of creates, updates and deletes;
a batch over the limit fails fast with the too-many error; and a batch
containing an update or delete referencing an absent id fails as a whole
(no result is returned). -/
theorem C1_bulk_process (ops : List BulkOperation) (all : List Transaction)
    (maps : LookupMaps) (now : Int) (gen : Nat → String) :
    (ops.length ≤ MAX_BULK_OPERATIONS →
      (∀ op ∈ ops, opValid all maps op = true) →
      ∃ r, prepare_bulk_core ops all maps now gen = .ok r ∧
        r.created_count = ops.countP isCreateOp ∧
        r.updated_count = ops.countP isUpdateOp ∧
        r.to_delete.length = ops.countP isDeleteOp) ∧
    (MAX_BULK_OPERATIONS < ops.length →
      prepare_bulk_core ops all maps now gen =
        .error (.invalidParams tooManyMsg)) ∧
    ((∃ op ∈ ops, opRefMissing all op = true) →
      isOkE (prepare_bulk_core ops all maps now gen) = false) := by
  refine ⟨?_, ?_, ?_⟩
  · intro hlen hvalid
    unfold prepare_bulk_core process_bulk_operations
    rw [if_neg (by omega)]
    obtain ⟨r, hr, hc, hu, hd⟩ := processBulkAux_ok_of_valid all maps now gen ops
      { to_push := [], to_delete := [], created_count := 0, updated_count := 0 } hvalid
    exact ⟨r, hr, by simpa using hc, by simpa using hu, by simpa using hd⟩
  · intro hlen
    unfold prepare_bulk_core
    rw [if_pos (by omega)]
  · intro hex
    unfold prepare_bulk_core process_bulk_operations
    by_cases hl : ops.length > MAX_BULK_OPERATIONS
    · rw [if_pos hl]
      rfl
    · rw [if_neg hl]
      exact processBulkAux_error_of_missing all maps now gen ops _ hex

/-- The fresh-id generator used by witnesses. -/
def genW : Nat → String := fun _ => "new-1"

/-- The valid witness batch: one create, one update of `tx-1`, one delete of
`tx-1`. -/
def opsW : List BulkOperation :=
  [.Create pW, .Update upAmountW, .Delete { id := "tx-1" }]

/-- A batch of 21 operations, over the limit. -/
def ops21W : List BulkOperation :=
  List.replicate 21 (.Delete { id := "tx-1" })

/-- A batch whose delete references an id absent from the snapshot. -/
def opsMissW : List BulkOperation :=
  [.Delete { id := "ghost" }]

/-- Witness for C1 (amended): the valid 3-operation batch succeeds with
counts 1/1/1, the 21-operation batch fails with the size error, and the
batch referencing the unknown id `ghost` fails. -/
theorem C1_witness :
    (∃ r, prepare_bulk_core opsW [txW] mapsW 3 genW = .ok r ∧
      r.created_count = opsW.countP isCreateOp ∧
      r.updated_count = opsW.countP isUpdateOp ∧
      r.to_delete.length = opsW.countP isDeleteOp) ∧
    (prepare_bulk_core ops21W [txW] mapsW 3 genW =
      .error (.invalidParams tooManyMsg)) ∧
    (isOkE (prepare_bulk_core opsMissW [txW] mapsW 3 genW) = false) :=
  ⟨(C1_bulk_process opsW [txW] mapsW 3 genW).1 (by decide) (by decide),
   (C1_bulk_process ops21W [txW] mapsW 3 genW).2.1 (by decide),
   (C1_bulk_process opsMissW [txW] mapsW 3 genW).2.2
     ⟨.Delete { id := "ghost" }, by simp [opsMissW], by decide⟩⟩

/-- Counterexample for C1 as stated: a single-create batch within the limit,
with no update or delete at all, still fails when the create itself is
invalid (here a transfer without a destination account), so success is not
guaranteed by the limit and the existence of referenced ids alone. -/
theorem C1_counterexample :
    [BulkOperation.Create pTransNoDest].length ≤ MAX_BULK_OPERATIONS ∧
    isOkE (prepare_bulk_core [BulkOperation.Create pTransNoDest]
      [txW] mapsW 0 genW) = false :=
  ⟨by decide, rfl⟩

/-! ## Push/delete provenance for C8 -/

/-- Transactions agreeing on the frame agree on their id. -/
theorem sameFrame_id {a b : Transaction} (h : sameFrame a b) : a.id = b.id :=
  congrArg Prod.fst h

/-- A built transaction bears the supplied fresh id. -/
theorem build_id {p : CreateTransactionParams} {maps : LookupMaps} {now : Int}
    {fid : String} {tx : Transaction}
    (h : build_transaction p maps now fid = .ok tx) : tx.id = fid := by
  cases hd : parseDate p.date with
  | none => simp [build_transaction, hd] at h
  | some d =>
    cases hs : resolve_sides p maps with
    | error e => simp [build_transaction, hd, hs] at h
    | ok s =>
      simp only [build_transaction, hd, hs, Except.ok.injEq] at h
      subst h
      rfl

/-- A patched transaction keeps the id of the transaction it patches. -/
theorem apply_update_id {tx t : Transaction} {p : UpdateTransactionParams}
    {maps : LookupMaps} {now : Int} (h : apply_update tx p maps now = .ok t) :
    t.id = tx.id :=
  sameFrame_id (apply_update_frame h)

/-- Provenance of the bulk loop outputs: every pushed transaction was in the
accumulator, carries a generated fresh id, or carries the id of an update
operation; every delete entry was in the accumulator or is the id of a
delete operation. -/
theorem processBulkAux_mem (all : List Transaction) (maps : LookupMaps)
    (now : Int) (gen : Nat → String) :
    ∀ (ops : List BulkOperation) (acc r : PreparedBulk),
      processBulkAux all maps now gen ops acc = .ok r →
      (∀ tx ∈ r.to_push, tx ∈ acc.to_push ∨ (∃ k, tx.id = gen k) ∨
        tx.id ∈ updateTargets ops) ∧
      (∀ i ∈ r.to_delete, i ∈ acc.to_delete ∨ i ∈ deleteTargets ops) := by
  intro ops
  induction ops with
  | nil =>
    intro acc r h
    simp only [processBulkAux, Except.ok.injEq] at h
    subst h
    exact ⟨fun tx ht => Or.inl ht, fun i hi => Or.inl hi⟩
  | cons op rest ih =>
    intro acc r h
    cases op with
    | Create p =>
      cases hb : build_transaction p maps now (gen acc.created_count) with
      | error e => simp [processBulkAux, hb] at h
      | ok ntx =>
        simp only [processBulkAux, hb] at h
        obtain ⟨hpush, hdel⟩ := ih _ r h
        constructor
        · intro tx ht
          rcases hpush tx ht with hin | hgen | hupd
          · rcases List.mem_append.mp hin with h1 | h1
            · exact Or.inl h1
            · have h2 : tx = ntx := by simpa using h1
              subst h2
              exact Or.inr (Or.inl ⟨acc.created_count, build_id hb⟩)
          · exact Or.inr (Or.inl hgen)
          · refine Or.inr (Or.inr ?_)
            simpa [updateTargets] using hupd
        · intro i hi
          rcases hdel i hi with h1 | h1
          · exact Or.inl h1
          · refine Or.inr ?_
            simpa [deleteTargets] using h1
    | Update u =>
      cases hf : findTx all u.id with
      | none => simp [processBulkAux, hf] at h
      | some found =>
        cases ha : apply_update found u maps now with
        | error e => simp [processBulkAux, hf, ha] at h
        | ok updated =>
          simp only [processBulkAux, hf, ha] at h
          obtain ⟨hpush, hdel⟩ := ih _ r h
          constructor
          · intro tx ht
            rcases hpush tx ht with hin | hgen | hupd
            · rcases List.mem_append.mp hin with h1 | h1
              · exact Or.inl h1
              · have h2 : tx = updated := by simpa using h1
                subst h2
                refine Or.inr (Or.inr ?_)
                have hid := (apply_update_id ha).trans (findTx_id hf)
                simp [updateTargets, hid]
            · exact Or.inr (Or.inl hgen)
            · refine Or.inr (Or.inr ?_)
              simp [updateTargets]
              right
              simpa [updateTargets] using hupd
          · intro i hi
            rcases hdel i hi with h1 | h1
            · exact Or.inl h1
            · refine Or.inr ?_
              simpa [deleteTargets] using h1
    | Delete d =>
      cases hany : all.any (fun tx => tx.id == d.id) with
      | false => simp [processBulkAux, hany] at h
      | true =>
        simp only [processBulkAux, hany, if_true] at h
        obtain ⟨hpush, hdel⟩ := ih _ r h
        constructor
        · intro tx ht
          rcases hpush tx ht with hin | hgen | hupd
          · exact Or.inl hin
          · exact Or.inr (Or.inl hgen)
          · refine Or.inr (Or.inr ?_)
            simpa [updateTargets] using hupd
        · intro i hi
          rcases hdel i hi with h1 | h1
          · rcases List.mem_append.mp h1 with h2 | h2
            · exact Or.inl h2
            · have h3 : i = d.id := by simpa using h2
              subst h3
              simp [deleteTargets]
          · refine Or.inr ?_
            simp [deleteTargets]
            right
            simpa [deleteTargets] using h1

/-! ## C8: disjointness of push and delete outputs (amended) -/

/-- C8 (amended): when a batch processes successfully, no pushed transaction
id also appears in the delete list, provided no id is targeted by both an
update and a delete in the same batch and the generated fresh create ids
avoid the delete-targeted ids. Without that proviso the code does place the
same id in both outputs (see the counterexample): it performs no cross-
operation check. -/
theorem C8_disjoint_amended (ops : List BulkOperation) (all : List Transaction)
    (maps : LookupMaps) (now : Int) (gen : Nat → String) (r : PreparedBulk)
    (h : process_bulk_operations ops all maps now gen = .ok r)
    (hsep : ∀ i ∈ updateTargets ops, i ∉ deleteTargets ops)
    (hgen : ∀ k, gen k ∉ deleteTargets ops) :
    ∀ tx ∈ r.to_push, tx.id ∉ r.to_delete := by
  unfold process_bulk_operations at h
  obtain ⟨hpush, hdel⟩ := processBulkAux_mem all maps now gen ops _ r h
  intro tx ht hmem
  rcases hdel tx.id hmem with h1 | h1
  · simp at h1
  · rcases hpush tx ht with h2 | ⟨k, hk⟩ | h2
    · simp at h2
    · exact hgen k (hk ▸ h1)
    · exact hsep tx.id h2 h1

/-- The witness batch for C8: update `tx-1`, delete `tx-2`. -/
def ops8W : List BulkOperation :=
  [.Update upEmptyW, .Delete { id := "tx-2" }]

/-- The processed result of the C8 witness batch. -/
def r8W : PreparedBulk :=
  { to_push := [{ txW with changed := 4 }], to_delete := ["tx-2"]
    created_count := 0, updated_count := 1 }

/-- Witness for C8 (amended): in the batch updating `tx-1` and deleting
`tx-2`, the pushed transaction id is not in the delete list. -/
theorem C8_witness : ({ txW with changed := 4 }).id ∉ r8W.to_delete :=
  C8_disjoint_amended ops8W [txW, txW2] mapsW 4 genW r8W rfl
    (by decide) (fun k => (by decide : "new-1" ∉ deleteTargets ops8W))
    { txW with changed := 4 } (by decide)

/-- Push-side ids of a processed batch. -/
def pushIdsOf (e : Except McpError PreparedBulk) : List String :=
  match e with
  | .ok b => b.to_push.map (fun t => t.id)
  | .error _ => []

/-- Delete-side ids of a processed batch. -/
def delIdsOf (e : Except McpError PreparedBulk) : List String :=
  match e with
  | .ok b => b.to_delete
  | .error _ => []

/-- Counterexample for C8 as stated: the batch that updates and deletes the
same existing id `tx-1` processes successfully and places `tx-1` both among
the pushed transaction ids and in the delete list. -/
theorem C8_counterexample :
    pushIdsOf (process_bulk_operations
      [.Update upEmptyW, .Delete { id := "tx-1" }] [txW] mapsW 7 genW) = ["tx-1"] ∧
    delIdsOf (process_bulk_operations
      [.Update upEmptyW, .Delete { id := "tx-1" }] [txW] mapsW 7 genW) = ["tx-1"] :=
  ⟨rfl, rfl⟩

/-- Witness for C3: the concrete 500/0 single-account fixture classifies as
an expense. -/
theorem C3_witness : classify_transaction txW = .Expense :=
  (C3_classify_characterization txW).2.2.mpr (by decide)
